import Mathlib

/-
Verification development for the hedera-local-node bring-up phase
(src/src/state/InitState.ts and src/unnamed/part_000, the constants file).

The stateful TypeScript methods are embedded as pure Lean functions that
return an explicit list of effects: environment-variable assignments,
filesystem mutations (directory creation, path copies, file writes) and
terminal events emitted to the observer.  The process environment is an
association list from keys to values, updated in trace order, so the
last write to a key wins, matching assignment to process.env.  The
mirror-node application YAML document is embedded as an association list
from key paths to values, since the code indexes into it as an
untyped tree and only equality and preservation of entries matter here.
-/

namespace HederaLocalNode

/-- A key and value pair, as used for image tags, environment variables and
node properties (src/types/NetworkConfiguration Configuration). -/
structure Configuration where
  key : String
  value : String
deriving Repr, DecidableEq

/-- The resolved command line options consumed by InitState
(this.cliOptions in src/src/state/InitState.ts). -/
structure CLIOptions where
  network : String
  workDir : String
  host : String
  devMode : Bool
  fullMode : Bool
  multiNode : Bool
  enableDebug : Bool
  limits : Bool
deriving Repr, DecidableEq

/-- The node configuration section of a catalog entry; onStart reads its
properties field (configurationData.nodeConfiguration?.properties). -/
structure NodeConfiguration where
  properties : List Configuration
deriving Repr, DecidableEq

/-- A configuration catalog entry for one network: image tags, optional
environment variables, optional node properties. -/
structure ConfigurationData where
  imageTagConfiguration : List Configuration
  envConfiguration : Option (List Configuration)
  nodeConfiguration : Option NodeConfiguration
deriving Repr, DecidableEq

/-- The embedded template originalNodeConfiguration.json.  The JSON file
itself is outside the given sources, so its payloads are abstract fields:
the ordered bootsrapProperties list (the misspelling is from the source),
the turboNodeProperties dataPath and sources values, the local section and
the multiNodeProperties monitor node list, each kept as an uninterpreted
string payload. -/
structure OriginalNodeConfiguration where
  bootsrapProperties : List Configuration
  turboDataPath : String
  turboSources : String
  localSection : String
  multiNodeProperties : String
deriving Repr, DecidableEq

/-- Terminal lifecycle events (src/types/EventType), restricted to the two
emitted by InitState.onStart. -/
inductive EventType where
  | Finish
  | UnresolvableError
deriving Repr, DecidableEq

/-- A path into the YAML document tree. -/
abbrev YPath := List String

/-- The mirror-node application document: association list from key paths
to uninterpreted values. -/
abbrev YDoc := List (YPath × String)

/-- One observable effect of the bring-up phase, in program order. -/
inductive Effect where
  | checkComposeVersion (result : Bool)
  | checkDocker (result : Bool)
  | checkResources (result : Bool)
  | portScan (ports : List Nat)
  | createEphemeralDirectories (root : String)
  | copyPaths (pairs : List (String × String))
  | setEnv (key : String) (value : String)
  | writeFile (path : String) (content : String)
  | writeYaml (path : String) (doc : YDoc) (lineWidth : Nat)
  | emit (event : EventType)
deriving Repr, DecidableEq

/-- NECESSARY_PORTS from the constants file. -/
def NECESSARY_PORTS : List Nat := [5551, 8545, 5600, 5433, 50211, 8082]

/-- OPTIONAL_PORTS from the constants file. -/
def OPTIONAL_PORTS : List Nat := [7546, 8080, 6379, 3000]

/-- APPLICATION_YML_RELATIVE_PATH from the constants file. -/
def APPLICATION_YML_RELATIVE_PATH : String :=
  "../../compose-network/mirror-node/application.yml"

/-- path.join of two segments, embedded as separator concatenation. -/
def joinPath (a b : String) : String := a ++ "/" ++ b

/-- Marker for the module directory __dirname used in source paths. -/
def dirname : String := "__dirname"

/-- Update an association list at a key, replacing the first binding or
appending a fresh one; shared by the process environment and the YAML
document model. -/
def setAssoc {α β : Type} [DecidableEq α] : List (α × β) → α → β → List (α × β)
  | [], k, v => [(k, v)]
  | (k0, v0) :: rest, k, v =>
    if k0 = k then (k, v) :: rest else (k0, v0) :: setAssoc rest k v

/-- Look up a key in an association list. -/
def lookupAssoc {α β : Type} [DecidableEq α] (m : List (α × β)) (k : α) : Option β :=
  (m.find? fun entry => entry.1 = k).map Prod.snd

/-- Apply the environment-variable assignments of a trace, in order, to an
initial process environment. -/
def applyEnv (env : List (String × String)) (trace : List Effect) : List (String × String) :=
  trace.foldl
    (fun acc e =>
      match e with
      | Effect.setEnv k v => setAssoc acc k v
      | _ => acc)
    env

/-- The events a trace emits to the observer, in order. -/
def emittedEvents (trace : List Effect) : List EventType :=
  trace.filterMap fun e =>
    match e with
    | Effect.emit event => some event
    | _ => none

/-- Whether an effect mutates the filesystem. -/
def Effect.isFileSystemMutation : Effect → Bool
  | Effect.createEphemeralDirectories _ => true
  | Effect.copyPaths _ => true
  | Effect.writeFile _ _ => true
  | Effect.writeYaml _ _ _ => true
  | _ => false

/-- Whether an effect is a plain file write. -/
def Effect.isWriteFile : Effect → Bool
  | Effect.writeFile _ _ => true
  | _ => false

/-- Whether an effect is a YAML document write. -/
def Effect.isWriteYaml : Effect → Bool
  | Effect.writeYaml _ _ _ => true
  | _ => false

/-- Whether an effect assigns the given environment-variable key. -/
def touchesKey (k : String) : Effect → Bool
  | Effect.setEnv k2 _ => k2 = k
  | _ => false

/-- The setEnv effects of a configuration list, in list order. -/
def setEnvEffects (vars : List Configuration) : List Effect :=
  vars.map fun v => Effect.setEnv v.key v.value

/-- The three forced rate-limit assignments of configureEnvVariables when
relay limits are disabled. -/
def rateLimitOverrides : List Effect :=
  [Effect.setEnv "RELAY_HBAR_RATE_LIMIT_TINYBAR" "0",
   Effect.setEnv "RELAY_HBAR_RATE_LIMIT_DURATION" "0",
   Effect.setEnv "RELAY_RATE_LIMIT_DISABLED" "true"]

/-- InitState.configureEnvVariables: export the image tags, then, when an
environment configuration is present, export it and force the rate-limit
variables when limits are disabled; with no environment configuration it
returns right after the image tags. -/
def configureEnvVariables (cliOptions : CLIOptions)
    (imageTagConfiguration : List Configuration)
    (envConfiguration : Option (List Configuration)) : List Effect :=
  let imageEffects := setEnvEffects imageTagConfiguration
  match envConfiguration with
  | none => imageEffects
  | some envC =>
    imageEffects ++ setEnvEffects envC ++
      (if !cliOptions.limits then rateLimitOverrides else [])

/-- Fold the key=value lines of a property list onto an accumulated string,
matching the string concatenation loop of configureNodeProperties. -/
def appendProperties (acc : String) (properties : List Configuration) : String :=
  properties.foldl (fun s p => s ++ p.key ++ "=" ++ p.value ++ "\n") acc

/-- InitState.configureNodeProperties: build the base template lines, and
when a node configuration is present append its lines and overwrite the
bootstrap.properties file; with no node configuration nothing is written. -/
def configureNodeProperties (original : OriginalNodeConfiguration)
    (cliOptions : CLIOptions)
    (nodeConfiguration : Option (List Configuration)) : List Effect :=
  let propertiesFilePath :=
    joinPath cliOptions.workDir "compose-network/network-node/data/config/bootstrap.properties"
  let newProperties := appendProperties "" original.bootsrapProperties
  match nodeConfiguration with
  | none => []
  | some nc => [Effect.writeFile propertiesFilePath (appendProperties newProperties nc)]

/-- Source directory of the network-node config files. -/
def configDirSource : String :=
  joinPath dirname "../../compose-network/network-node/data/config/"

/-- Source path of the mirror-node application template. -/
def configPathMirrorNodeSource : String := joinPath dirname APPLICATION_YML_RELATIVE_PATH

/-- Source path of the record-parser service. -/
def recordParserSource : String := joinPath dirname "../../src/services/record-parser"

/-- InitState.prepareWorkDirectory: create the ephemeral directories and
copy the three fixed source to destination path pairs. -/
def prepareWorkDirectory (cliOptions : CLIOptions) : List Effect :=
  [Effect.createEphemeralDirectories cliOptions.workDir,
   Effect.copyPaths
     [(configDirSource, cliOptions.workDir ++ "/compose-network/network-node/data/config"),
      (configPathMirrorNodeSource, cliOptions.workDir ++ "/compose-network/mirror-node/application.yml"),
      (recordParserSource, cliOptions.workDir ++ "/services/record-parser")]]

/-- Key path of hedera.mirror.importer.dataPath. -/
def dataPathKey : YPath := ["hedera", "mirror", "importer", "dataPath"]

/-- Key path of hedera.mirror.importer.downloader.sources. -/
def sourcesKey : YPath := ["hedera", "mirror", "importer", "downloader", "sources"]

/-- Key path of hedera.mirror.importer.downloader.local. -/
def localKey : YPath := ["hedera", "mirror", "importer", "downloader", "local"]

/-- Key path of hedera.mirror.monitor.nodes. -/
def monitorNodesKey : YPath := ["hedera", "mirror", "monitor", "nodes"]

/-- The literal RELAY_HEDERA_NETWORK value set in multi-node mode. -/
def relayHederaNetworkValue : String :=
  "\x7b\"network-node:50211\":\"0.0.3\",\"network-node-1:50211\":\"0.0.4\",\"network-node-2:50211\":\"0.0.5\",\"network-node-3:50211\":\"0.0.6\"\x7d"

/-- The application document after the three independently gated mutations
of configureMirrorNodeProperties: turbo mode rewrites the importer data
path and downloader sources, debug mode rewrites the downloader local
section, multi-node mode rewrites the monitor node list. -/
def mirrorNodeDocument (original : OriginalNodeConfiguration)
    (cliOptions : CLIOptions) (application : YDoc) : YDoc :=
  let turboMode := !cliOptions.fullMode
  let debugMode := cliOptions.enableDebug
  let multiNode := cliOptions.multiNode
  let app1 :=
    if turboMode then
      setAssoc (setAssoc application dataPathKey original.turboDataPath)
        sourcesKey original.turboSources
    else application
  let app2 := if debugMode then setAssoc app1 localKey original.localSection else app1
  if multiNode then setAssoc app2 monitorNodesKey original.multiNodeProperties else app2

/-- InitState.configureMirrorNodeProperties: load the application document
(passed here as a parameter), apply the gated mutations, set the relay
network variable in multi-node mode, and serialize the document back with
line width 256. -/
def configureMirrorNodeProperties (original : OriginalNodeConfiguration)
    (cliOptions : CLIOptions) (application : YDoc) : List Effect :=
  let propertiesFilePath := joinPath cliOptions.workDir "compose-network/mirror-node/application.yml"
  (if cliOptions.multiNode then
      [Effect.setEnv "RELAY_HEDERA_NETWORK" relayHederaNetworkValue]
    else []) ++
    [Effect.writeYaml propertiesFilePath (mirrorNodeDocument original cliOptions application) 256]

/-- The working-directory-relative environment entries appended by onStart
after the catalog environment configuration. -/
def workDirConfiguration (cliOptions : CLIOptions) : List Configuration :=
  [⟨"NETWORK_NODE_LOGS_ROOT_PATH", joinPath (joinPath cliOptions.workDir "network-logs") "node"⟩,
   ⟨"APPLICATION_CONFIG_PATH",
     joinPath (joinPath (joinPath (joinPath cliOptions.workDir "compose-network") "network-node") "data") "config"⟩,
   ⟨"MIRROR_NODE_CONFIG_PATH", cliOptions.workDir⟩,
   ⟨"RECORD_PARSER_ROOT_PATH", joinPath (joinPath cliOptions.workDir "services") "record-parser"⟩]

/-- Modelled from the spec: ConfigurationData.getSelectedConfigurationData
is outside the given sources; the catalog is a read-only table from network
identifiers to configuration entries, and an unrecognized identifier
resolves to no entry. -/
def getSelectedConfigurationData (catalog : List (String × ConfigurationData))
    (network : String) : Option ConfigurationData :=
  (catalog.find? fun entry => entry.1 = network).map Prod.snd

/-- InitState.onStart as a trace-producing function.  The resolution result
of getSelectedConfigurationData is a parameter; the branch for an
unrecognized network is modelled from the spec (fail fast with
UnresolvableError, since the resolver is outside the given sources).  The
three readiness results are parameters standing for the awaited Docker
service calls, all three awaited before the combined test, exactly as in
the source.  The loaded application document is a parameter standing for
the file read of configureMirrorNodeProperties. -/
def onStart (original : OriginalNodeConfiguration) (cliOptions : CLIOptions)
    (selectedConfiguration : Option ConfigurationData)
    (isCorrectDockerComposeVersion isDockerStarted dockerHasEnoughResources : Bool)
    (application : YDoc) : List Effect :=
  match selectedConfiguration with
  | none => [Effect.emit EventType.UnresolvableError]
  | some configurationData =>
    [Effect.checkComposeVersion isCorrectDockerComposeVersion,
     Effect.checkDocker isDockerStarted,
     Effect.checkResources dockerHasEnoughResources] ++
    if !(isCorrectDockerComposeVersion && isDockerStarted && dockerHasEnoughResources) then
      [Effect.emit EventType.UnresolvableError]
    else
      Effect.portScan (NECESSARY_PORTS ++ OPTIONAL_PORTS) ::
      prepareWorkDirectory cliOptions ++
      configureEnvVariables cliOptions configurationData.imageTagConfiguration
        (some ((configurationData.envConfiguration.getD []) ++ workDirConfiguration cliOptions)) ++
      configureNodeProperties original cliOptions
        (configurationData.nodeConfiguration.map NodeConfiguration.properties) ++
      configureMirrorNodeProperties original cliOptions application ++
      [Effect.emit EventType.Finish]

/-- Modelled from the spec: DockerService.isPortInUse is outside the given
sources; per the spec a conflict on a necessary scanned port is fatal and a
conflict on an optional scanned port is advisory only. -/
structure PortReport where
  fatal : Bool
  advisories : List Nat
deriving Repr, DecidableEq

/-- Modelled from the spec: the port scan over the given ports against the
set of ports currently in use, reporting fatality for necessary conflicts
and advisories for optional conflicts. -/
def isPortInUse (ports : List Nat) (portsInUse : List Nat) : PortReport :=
  { fatal := ports.any fun p => portsInUse.contains p && NECESSARY_PORTS.contains p,
    advisories := ports.filter fun p => portsInUse.contains p && OPTIONAL_PORTS.contains p }

/-!  Helper lemmas about the association-list and trace combinators. -/

theorem lookupAssoc_nil {α β : Type} [DecidableEq α] (k : α) :
    lookupAssoc ([] : List (α × β)) k = none := rfl

theorem lookupAssoc_cons {α β : Type} [DecidableEq α]
    (p : α × β) (m : List (α × β)) (k : α) :
    lookupAssoc (p :: m) k = if p.1 = k then some p.2 else lookupAssoc m k := by
  by_cases h : p.1 = k <;> simp [lookupAssoc, List.find?_cons, h]

theorem lookupAssoc_setAssoc {α β : Type} [DecidableEq α]
    (m : List (α × β)) (k k2 : α) (v : β) :
    lookupAssoc (setAssoc m k2 v) k = if k2 = k then some v else lookupAssoc m k := by
  induction m with
  | nil => by_cases h : k2 = k <;> simp [setAssoc, lookupAssoc_cons, lookupAssoc_nil, h]
  | cons hd tl ih =>
    obtain ⟨k0, v0⟩ := hd
    by_cases h0 : k0 = k2
    · subst h0
      by_cases h : k0 = k <;> simp [setAssoc, lookupAssoc_cons, h]
    · by_cases h : k2 = k
      · subst h
        simp [setAssoc, h0, lookupAssoc_cons, ih]
      · simp [setAssoc, h0, lookupAssoc_cons, ih, h]

theorem applyEnv_nil (env : List (String × String)) : applyEnv env [] = env := rfl

theorem applyEnv_append (env : List (String × String)) (t1 t2 : List Effect) :
    applyEnv env (t1 ++ t2) = applyEnv (applyEnv env t1) t2 :=
  List.foldl_append _ _ _ _

theorem applyEnv_cons (env : List (String × String)) (e : Effect) (t : List Effect) :
    applyEnv env (e :: t) =
      applyEnv
        (match e with
         | Effect.setEnv k v => setAssoc env k v
         | _ => env) t := by
  cases e <;> rfl

theorem emittedEvents_nil : emittedEvents [] = [] := rfl

theorem emittedEvents_append (t1 t2 : List Effect) :
    emittedEvents (t1 ++ t2) = emittedEvents t1 ++ emittedEvents t2 := by
  simp [emittedEvents]

theorem emittedEvents_cons (e : Effect) (t : List Effect) :
    emittedEvents (e :: t) =
      (match e with
       | Effect.emit ev => [ev]
       | _ => []) ++ emittedEvents t := by
  cases e <;> rfl

/-!  Sample values used to instantiate theorems with hypotheses. -/

/-- A sample embedded template with a nonempty base property list. -/
def sampleOriginal : OriginalNodeConfiguration :=
  { bootsrapProperties := [⟨"ledger.id", "0x03"⟩, ⟨"netty.mode", "DEV"⟩],
    turboDataPath := "/turbo/data",
    turboSources := "turbo-sources",
    localSection := "local-section",
    multiNodeProperties := "multi-node-list" }

/-- Sample command line options. -/
def sampleCliOptions : CLIOptions :=
  { network := "local", workDir := "/wd", host := "127.0.0.1", devMode := false,
    fullMode := false, multiNode := false, enableDebug := false, limits := false }

/-- A sample catalog entry with all sections present. -/
def sampleConfigurationData : ConfigurationData :=
  { imageTagConfiguration := [⟨"NETWORK_NODE_IMAGE_TAG", "0.49.7"⟩],
    envConfiguration := some [⟨"RELAY_RATE_LIMIT_DISABLED", "false"⟩],
    nodeConfiguration := some ⟨[⟨"ledger.id", "0x02"⟩]⟩ }

/-- A sample catalog entry with no environment and no node configuration. -/
def sampleBareConfigurationData : ConfigurationData :=
  { imageTagConfiguration := [⟨"NETWORK_NODE_IMAGE_TAG", "0.49.7"⟩],
    envConfiguration := none,
    nodeConfiguration := none }

/-- A sample loaded application document. -/
def sampleApplication : YDoc :=
  [(dataPathKey, "/orig/data"), (monitorNodesKey, "single-node-list"),
   (["hedera", "mirror", "rest", "port"], "5551")]

/-- Claim C1: whenever at least one of the three readiness checks is false,
onStart still evaluates all three checks (each appears in the trace with
its result), emits UnresolvableError as its only event, performs no
filesystem mutation, and leaves the process environment unchanged. -/
theorem claim_C1_readiness_failure
    (original : OriginalNodeConfiguration) (cliOptions : CLIOptions)
    (configurationData : ConfigurationData)
    (cVer cDoc cRes : Bool) (application : YDoc) (env : List (String × String))
    (h : (cVer && cDoc && cRes) = false) :
    Effect.checkComposeVersion cVer ∈
        onStart original cliOptions (some configurationData) cVer cDoc cRes application ∧
    Effect.checkDocker cDoc ∈
        onStart original cliOptions (some configurationData) cVer cDoc cRes application ∧
    Effect.checkResources cRes ∈
        onStart original cliOptions (some configurationData) cVer cDoc cRes application ∧
    emittedEvents (onStart original cliOptions (some configurationData) cVer cDoc cRes application)
      = [EventType.UnresolvableError] ∧
    (onStart original cliOptions (some configurationData) cVer cDoc cRes application).filter
        Effect.isFileSystemMutation = [] ∧
    applyEnv env (onStart original cliOptions (some configurationData) cVer cDoc cRes application)
      = env := by
  simp [onStart, h, emittedEvents_cons, emittedEvents_nil, applyEnv_cons, applyEnv_nil,
    Effect.isFileSystemMutation, List.filter]

/-- Witness for claim C1 at a concrete failing resource check. -/
theorem claim_C1_readiness_failure_witness :
    (true && true && false) = false ∧
    (Effect.checkComposeVersion true ∈
        onStart sampleOriginal sampleCliOptions (some sampleConfigurationData) true true false
          sampleApplication ∧
     Effect.checkDocker true ∈
        onStart sampleOriginal sampleCliOptions (some sampleConfigurationData) true true false
          sampleApplication ∧
     Effect.checkResources false ∈
        onStart sampleOriginal sampleCliOptions (some sampleConfigurationData) true true false
          sampleApplication ∧
     emittedEvents (onStart sampleOriginal sampleCliOptions (some sampleConfigurationData)
          true true false sampleApplication) = [EventType.UnresolvableError] ∧
     (onStart sampleOriginal sampleCliOptions (some sampleConfigurationData) true true false
          sampleApplication).filter Effect.isFileSystemMutation = [] ∧
     applyEnv [] (onStart sampleOriginal sampleCliOptions (some sampleConfigurationData)
          true true false sampleApplication) = []) :=
  ⟨rfl, claim_C1_readiness_failure sampleOriginal sampleCliOptions sampleConfigurationData
    true true false sampleApplication [] rfl⟩

/-- Claim C2: for an unrecognized network identifier the resolver yields no
catalog entry, and onStart then emits UnresolvableError as its only event
and performs no filesystem mutation. -/
theorem claim_C2_unknown_network
    (original : OriginalNodeConfiguration) (cliOptions : CLIOptions)
    (catalog : List (String × ConfigurationData))
    (cVer cDoc cRes : Bool) (application : YDoc)
    (h : getSelectedConfigurationData catalog cliOptions.network = none) :
    emittedEvents (onStart original cliOptions
        (getSelectedConfigurationData catalog cliOptions.network) cVer cDoc cRes application)
      = [EventType.UnresolvableError] ∧
    (onStart original cliOptions (getSelectedConfigurationData catalog cliOptions.network)
        cVer cDoc cRes application).filter Effect.isFileSystemMutation = [] := by
  rw [h]
  simp [onStart, emittedEvents_cons, emittedEvents_nil, Effect.isFileSystemMutation, List.filter]

/-- Witness for claim C2 on an empty catalog. -/
theorem claim_C2_unknown_network_witness :
    getSelectedConfigurationData [] sampleCliOptions.network = none ∧
    (emittedEvents (onStart sampleOriginal sampleCliOptions
        (getSelectedConfigurationData [] sampleCliOptions.network) true true true
        sampleApplication) = [EventType.UnresolvableError] ∧
     (onStart sampleOriginal sampleCliOptions
        (getSelectedConfigurationData [] sampleCliOptions.network) true true true
        sampleApplication).filter Effect.isFileSystemMutation = []) :=
  ⟨rfl, claim_C2_unknown_network sampleOriginal sampleCliOptions [] true true true
    sampleApplication rfl⟩

theorem applyEnv_prepareWorkDirectory (env : List (String × String)) (cliOptions : CLIOptions) :
    applyEnv env (prepareWorkDirectory cliOptions) = env := rfl

theorem applyEnv_configureNodeProperties (env : List (String × String))
    (original : OriginalNodeConfiguration) (cliOptions : CLIOptions)
    (nodeConfiguration : Option (List Configuration)) :
    applyEnv env (configureNodeProperties original cliOptions nodeConfiguration) = env := by
  cases nodeConfiguration <;> rfl

theorem applyEnv_configureMirrorNodeProperties (env : List (String × String))
    (original : OriginalNodeConfiguration) (cliOptions : CLIOptions) (application : YDoc) :
    applyEnv env (configureMirrorNodeProperties original cliOptions application) =
      if cliOptions.multiNode then
        setAssoc env "RELAY_HEDERA_NETWORK" relayHederaNetworkValue
      else env := by
  by_cases h : cliOptions.multiNode <;>
    simp [configureMirrorNodeProperties, h, applyEnv_cons, applyEnv_nil]

theorem emittedEvents_setEnvEffects (l : List Configuration) :
    emittedEvents (setEnvEffects l) = [] := by
  induction l with
  | nil => rfl
  | cons c rest ih =>
    rw [show setEnvEffects (c :: rest) = Effect.setEnv c.key c.value :: setEnvEffects rest from rfl,
      emittedEvents_cons, ih]
    rfl

theorem filter_setEnvEffects (p : Effect → Bool)
    (hp : ∀ k v, p (Effect.setEnv k v) = false) (l : List Configuration) :
    (setEnvEffects l).filter p = [] := by
  induction l with
  | nil => rfl
  | cons c rest ih =>
    rw [show setEnvEffects (c :: rest) = Effect.setEnv c.key c.value :: setEnvEffects rest from rfl,
      List.filter_cons, hp, ih]
    rfl

/-- Claim C3: onStart scans the union of the necessary and optional ports;
on that scan a conflict is fatal exactly when a necessary port is in use,
so an optional-port conflict alone is never fatal, and every in-use
optional port is reported as an advisory. -/
theorem claim_C3_port_conflicts (portsInUse : List Nat)
    (original : OriginalNodeConfiguration) (cliOptions : CLIOptions)
    (configurationData : ConfigurationData) (application : YDoc) :
    ((isPortInUse (NECESSARY_PORTS ++ OPTIONAL_PORTS) portsInUse).fatal = true ↔
      ∃ p, p ∈ NECESSARY_PORTS ∧ p ∈ portsInUse) ∧
    (isPortInUse (NECESSARY_PORTS ++ OPTIONAL_PORTS) portsInUse).advisories
      = OPTIONAL_PORTS.filter (fun p => portsInUse.contains p) ∧
    Effect.portScan (NECESSARY_PORTS ++ OPTIONAL_PORTS) ∈
      onStart original cliOptions (some configurationData) true true true application := by
  refine ⟨?_, ?_, ?_⟩
  · simp [isPortInUse, NECESSARY_PORTS, OPTIONAL_PORTS, List.mem_cons]
  · simp [isPortInUse, NECESSARY_PORTS, OPTIONAL_PORTS, List.filter]
  · simp [onStart]

/-- Claim C10: configureEnvVariables with an undefined environment
configuration only exports the image tags and returns, so when the image
tags do not mention the three rate-limit keys, those keys keep their prior
values in the environment even though limits are disabled. -/
theorem claim_C10_no_env_configuration
    (cliOptions : CLIOptions) (imageTagConfiguration : List Configuration)
    (env : List (String × String))
    (_hlim : cliOptions.limits = false)
    (himg : ∀ c ∈ imageTagConfiguration,
      c.key ≠ "RELAY_HBAR_RATE_LIMIT_TINYBAR" ∧
      c.key ≠ "RELAY_HBAR_RATE_LIMIT_DURATION" ∧
      c.key ≠ "RELAY_RATE_LIMIT_DISABLED") :
    configureEnvVariables cliOptions imageTagConfiguration none
      = setEnvEffects imageTagConfiguration ∧
    lookupAssoc (applyEnv env (configureEnvVariables cliOptions imageTagConfiguration none))
      "RELAY_HBAR_RATE_LIMIT_TINYBAR" = lookupAssoc env "RELAY_HBAR_RATE_LIMIT_TINYBAR" ∧
    lookupAssoc (applyEnv env (configureEnvVariables cliOptions imageTagConfiguration none))
      "RELAY_HBAR_RATE_LIMIT_DURATION" = lookupAssoc env "RELAY_HBAR_RATE_LIMIT_DURATION" ∧
    lookupAssoc (applyEnv env (configureEnvVariables cliOptions imageTagConfiguration none))
      "RELAY_RATE_LIMIT_DISABLED" = lookupAssoc env "RELAY_RATE_LIMIT_DISABLED" := by
  refine ⟨rfl, ?_⟩
  induction imageTagConfiguration generalizing env with
  | nil => exact ⟨rfl, rfl, rfl⟩
  | cons c rest ih =>
    obtain ⟨h1, h2, h3⟩ := himg c (List.mem_cons_self c rest)
    have hrest : ∀ c2 ∈ rest,
        c2.key ≠ "RELAY_HBAR_RATE_LIMIT_TINYBAR" ∧
        c2.key ≠ "RELAY_HBAR_RATE_LIMIT_DURATION" ∧
        c2.key ≠ "RELAY_RATE_LIMIT_DISABLED" :=
      fun c2 hc2 => himg c2 (List.mem_cons_of_mem c hc2)
    have step := ih (setAssoc env c.key c.value) hrest
    simpa [configureEnvVariables, setEnvEffects, applyEnv_cons,
      lookupAssoc_setAssoc, h1, h2, h3] using step

/-- Witness for claim C10 at concrete options and image tags. -/
theorem claim_C10_no_env_configuration_witness :
    sampleCliOptions.limits = false ∧
    (∀ c ∈ sampleConfigurationData.imageTagConfiguration,
      c.key ≠ "RELAY_HBAR_RATE_LIMIT_TINYBAR" ∧
      c.key ≠ "RELAY_HBAR_RATE_LIMIT_DURATION" ∧
      c.key ≠ "RELAY_RATE_LIMIT_DISABLED") ∧
    (configureEnvVariables sampleCliOptions sampleConfigurationData.imageTagConfiguration none
      = setEnvEffects sampleConfigurationData.imageTagConfiguration ∧
     lookupAssoc (applyEnv [] (configureEnvVariables sampleCliOptions
        sampleConfigurationData.imageTagConfiguration none)) "RELAY_HBAR_RATE_LIMIT_TINYBAR"
      = lookupAssoc [] "RELAY_HBAR_RATE_LIMIT_TINYBAR" ∧
     lookupAssoc (applyEnv [] (configureEnvVariables sampleCliOptions
        sampleConfigurationData.imageTagConfiguration none)) "RELAY_HBAR_RATE_LIMIT_DURATION"
      = lookupAssoc [] "RELAY_HBAR_RATE_LIMIT_DURATION" ∧
     lookupAssoc (applyEnv [] (configureEnvVariables sampleCliOptions
        sampleConfigurationData.imageTagConfiguration none)) "RELAY_RATE_LIMIT_DISABLED"
      = lookupAssoc [] "RELAY_RATE_LIMIT_DISABLED") :=
  ⟨rfl, by decide, claim_C10_no_env_configuration sampleCliOptions
    sampleConfigurationData.imageTagConfiguration [] rfl (by decide)⟩

/-- Claim C4: with limits disabled, after the environment-variable
configuration step of a successful onStart run the three rate-limit
variables hold their disabling values in the resulting environment,
regardless of the catalog content. -/
theorem claim_C4_limits_disabled_override
    (original : OriginalNodeConfiguration) (cliOptions : CLIOptions)
    (configurationData : ConfigurationData) (application : YDoc)
    (env : List (String × String))
    (hlim : cliOptions.limits = false) :
    lookupAssoc (applyEnv env (onStart original cliOptions (some configurationData)
        true true true application)) "RELAY_HBAR_RATE_LIMIT_TINYBAR" = some "0" ∧
    lookupAssoc (applyEnv env (onStart original cliOptions (some configurationData)
        true true true application)) "RELAY_HBAR_RATE_LIMIT_DURATION" = some "0" ∧
    lookupAssoc (applyEnv env (onStart original cliOptions (some configurationData)
        true true true application)) "RELAY_RATE_LIMIT_DISABLED" = some "true" := by
  by_cases hm : cliOptions.multiNode <;>
    simp [onStart, hlim, hm, configureEnvVariables, rateLimitOverrides,
      applyEnv_append, applyEnv_cons, applyEnv_nil, applyEnv_prepareWorkDirectory,
      applyEnv_configureNodeProperties, applyEnv_configureMirrorNodeProperties,
      lookupAssoc_setAssoc]

/-- Witness for claim C4 at concrete inputs. -/
theorem claim_C4_limits_disabled_override_witness :
    sampleCliOptions.limits = false ∧
    (lookupAssoc (applyEnv [] (onStart sampleOriginal sampleCliOptions
        (some sampleConfigurationData) true true true sampleApplication))
        "RELAY_HBAR_RATE_LIMIT_TINYBAR" = some "0" ∧
     lookupAssoc (applyEnv [] (onStart sampleOriginal sampleCliOptions
        (some sampleConfigurationData) true true true sampleApplication))
        "RELAY_HBAR_RATE_LIMIT_DURATION" = some "0" ∧
     lookupAssoc (applyEnv [] (onStart sampleOriginal sampleCliOptions
        (some sampleConfigurationData) true true true sampleApplication))
        "RELAY_RATE_LIMIT_DISABLED" = some "true") :=
  ⟨rfl, claim_C4_limits_disabled_override sampleOriginal sampleCliOptions
    sampleConfigurationData sampleApplication [] rfl⟩

/-- Claim C6: in a successful onStart run the four working-directory
relative entries are appended after the catalog environment list, so in the
resulting environment these four keys hold the working-directory values,
whatever the catalog specified for them. -/
theorem claim_C6_workdir_path_precedence
    (original : OriginalNodeConfiguration) (cliOptions : CLIOptions)
    (configurationData : ConfigurationData) (application : YDoc)
    (env : List (String × String)) :
    lookupAssoc (applyEnv env (onStart original cliOptions (some configurationData)
        true true true application)) "NETWORK_NODE_LOGS_ROOT_PATH"
      = some (joinPath (joinPath cliOptions.workDir "network-logs") "node") ∧
    lookupAssoc (applyEnv env (onStart original cliOptions (some configurationData)
        true true true application)) "APPLICATION_CONFIG_PATH"
      = some (joinPath (joinPath (joinPath (joinPath cliOptions.workDir "compose-network")
          "network-node") "data") "config") ∧
    lookupAssoc (applyEnv env (onStart original cliOptions (some configurationData)
        true true true application)) "MIRROR_NODE_CONFIG_PATH" = some cliOptions.workDir ∧
    lookupAssoc (applyEnv env (onStart original cliOptions (some configurationData)
        true true true application)) "RECORD_PARSER_ROOT_PATH"
      = some (joinPath (joinPath cliOptions.workDir "services") "record-parser") := by
  by_cases hl : cliOptions.limits <;> by_cases hm : cliOptions.multiNode <;>
    simp [onStart, hl, hm, configureEnvVariables, rateLimitOverrides,
      workDirConfiguration, setEnvEffects,
      applyEnv_append, applyEnv_cons, applyEnv_nil, applyEnv_prepareWorkDirectory,
      applyEnv_configureNodeProperties, applyEnv_configureMirrorNodeProperties,
      lookupAssoc_setAssoc]

/-- Claim C7: in multi-node mode the monitor node list of the rewritten
document is the multi-node template value and the relay network variable is
set to the fixed four-endpoint mapping; with multi-node off the monitor
node list is untouched and no relay network assignment occurs. -/
theorem claim_C7_multi_node_relay_mapping
    (original : OriginalNodeConfiguration) (cliOptions : CLIOptions) (application : YDoc) :
    lookupAssoc (mirrorNodeDocument original cliOptions application) monitorNodesKey
      = (if cliOptions.multiNode then some original.multiNodeProperties
         else lookupAssoc application monitorNodesKey) ∧
    (configureMirrorNodeProperties original cliOptions application).filter
        (touchesKey "RELAY_HEDERA_NETWORK")
      = (if cliOptions.multiNode then
          [Effect.setEnv "RELAY_HEDERA_NETWORK" relayHederaNetworkValue]
         else []) := by
  by_cases hf : cliOptions.fullMode = true <;> by_cases hd : cliOptions.enableDebug = true <;>
    by_cases hm : cliOptions.multiNode = true <;>
    simp [mirrorNodeDocument, configureMirrorNodeProperties, hf, hd, hm,
      lookupAssoc_setAssoc, dataPathKey, sourcesKey, localKey, monitorNodesKey,
      touchesKey, List.filter]

/-- The key paths rewritten by the mutations enabled by the given options. -/
def targetedPaths (cliOptions : CLIOptions) : List YPath :=
  (if !cliOptions.fullMode then [dataPathKey, sourcesKey] else []) ++
    (if cliOptions.enableDebug then [localKey] else []) ++
    (if cliOptions.multiNode then [monitorNodesKey] else [])

/-- Claim C9: the turbo, debug and multi-node mutations are each gated only
by their own flag and may compound; every key path not targeted by an
enabled mutation keeps its value from the loaded document, and the document
is serialized back with line width 256. -/
theorem claim_C9_mutations_independent_frame
    (original : OriginalNodeConfiguration) (cliOptions : CLIOptions)
    (application : YDoc) (p : YPath)
    (hp : p ∉ targetedPaths cliOptions) :
    lookupAssoc (mirrorNodeDocument original cliOptions application) p
      = lookupAssoc application p ∧
    lookupAssoc (mirrorNodeDocument original cliOptions application) dataPathKey
      = (if !cliOptions.fullMode then some original.turboDataPath
         else lookupAssoc application dataPathKey) ∧
    lookupAssoc (mirrorNodeDocument original cliOptions application) sourcesKey
      = (if !cliOptions.fullMode then some original.turboSources
         else lookupAssoc application sourcesKey) ∧
    lookupAssoc (mirrorNodeDocument original cliOptions application) localKey
      = (if cliOptions.enableDebug then some original.localSection
         else lookupAssoc application localKey) ∧
    lookupAssoc (mirrorNodeDocument original cliOptions application) monitorNodesKey
      = (if cliOptions.multiNode then some original.multiNodeProperties
         else lookupAssoc application monitorNodesKey) ∧
    configureMirrorNodeProperties original cliOptions application
      = (if cliOptions.multiNode then
          [Effect.setEnv "RELAY_HEDERA_NETWORK" relayHederaNetworkValue]
         else []) ++
        [Effect.writeYaml (joinPath cliOptions.workDir "compose-network/mirror-node/application.yml")
          (mirrorNodeDocument original cliOptions application) 256] := by
  have hmem : ∀ q, q ∈ targetedPaths cliOptions → ¬(q = p) := by
    intro q hq heq
    exact hp (heq ▸ hq)
  have h1 : cliOptions.fullMode = false → ¬(dataPathKey = p) := by
    intro h
    exact hmem dataPathKey (by simp [targetedPaths, h])
  have h2 : cliOptions.fullMode = false → ¬(sourcesKey = p) := by
    intro h
    exact hmem sourcesKey (by simp [targetedPaths, h])
  have h3 : cliOptions.enableDebug = true → ¬(localKey = p) := by
    intro h
    exact hmem localKey (by simp [targetedPaths, h])
  have h4 : cliOptions.multiNode = true → ¬(monitorNodesKey = p) := by
    intro h
    exact hmem monitorNodesKey (by simp [targetedPaths, h])
  refine ⟨?_, ?_⟩
  · by_cases hf : cliOptions.fullMode = true <;> by_cases hd : cliOptions.enableDebug = true <;>
      by_cases hm : cliOptions.multiNode = true <;>
      simp [mirrorNodeDocument, hf, hd, hm, lookupAssoc_setAssoc, h1, h2, h3, h4]
  · by_cases hf : cliOptions.fullMode = true <;> by_cases hd : cliOptions.enableDebug = true <;>
      by_cases hm : cliOptions.multiNode = true <;>
      simp [mirrorNodeDocument, configureMirrorNodeProperties, hf, hd, hm,
        lookupAssoc_setAssoc, dataPathKey, sourcesKey, localKey, monitorNodesKey]

/-- Witness for claim C9 with all three mutations enabled and an untargeted
key path. -/
theorem claim_C9_mutations_independent_frame_witness :
    (["hedera", "mirror", "rest", "port"] : YPath) ∉
      targetedPaths { sampleCliOptions with enableDebug := true, multiNode := true } ∧
    (lookupAssoc (mirrorNodeDocument sampleOriginal
        { sampleCliOptions with enableDebug := true, multiNode := true } sampleApplication)
        ["hedera", "mirror", "rest", "port"]
      = lookupAssoc sampleApplication ["hedera", "mirror", "rest", "port"] ∧
     lookupAssoc (mirrorNodeDocument sampleOriginal
        { sampleCliOptions with enableDebug := true, multiNode := true } sampleApplication)
        dataPathKey
      = (if !({ sampleCliOptions with enableDebug := true, multiNode := true } : CLIOptions).fullMode
         then some sampleOriginal.turboDataPath
         else lookupAssoc sampleApplication dataPathKey) ∧
     lookupAssoc (mirrorNodeDocument sampleOriginal
        { sampleCliOptions with enableDebug := true, multiNode := true } sampleApplication)
        sourcesKey
      = (if !({ sampleCliOptions with enableDebug := true, multiNode := true } : CLIOptions).fullMode
         then some sampleOriginal.turboSources
         else lookupAssoc sampleApplication sourcesKey) ∧
     lookupAssoc (mirrorNodeDocument sampleOriginal
        { sampleCliOptions with enableDebug := true, multiNode := true } sampleApplication)
        localKey
      = (if ({ sampleCliOptions with enableDebug := true, multiNode := true } : CLIOptions).enableDebug
         then some sampleOriginal.localSection
         else lookupAssoc sampleApplication localKey) ∧
     lookupAssoc (mirrorNodeDocument sampleOriginal
        { sampleCliOptions with enableDebug := true, multiNode := true } sampleApplication)
        monitorNodesKey
      = (if ({ sampleCliOptions with enableDebug := true, multiNode := true } : CLIOptions).multiNode
         then some sampleOriginal.multiNodeProperties
         else lookupAssoc sampleApplication monitorNodesKey) ∧
     configureMirrorNodeProperties sampleOriginal
        { sampleCliOptions with enableDebug := true, multiNode := true } sampleApplication
      = (if ({ sampleCliOptions with enableDebug := true, multiNode := true } : CLIOptions).multiNode
         then [Effect.setEnv "RELAY_HEDERA_NETWORK" relayHederaNetworkValue]
         else []) ++
        [Effect.writeYaml
          (joinPath ({ sampleCliOptions with enableDebug := true, multiNode := true } : CLIOptions).workDir
            "compose-network/mirror-node/application.yml")
          (mirrorNodeDocument sampleOriginal
            { sampleCliOptions with enableDebug := true, multiNode := true } sampleApplication)
          256]) :=
  ⟨by decide, claim_C9_mutations_independent_frame sampleOriginal
    { sampleCliOptions with enableDebug := true, multiNode := true } sampleApplication
    ["hedera", "mirror", "rest", "port"] (by decide)⟩

/-- Counterexample to claim C5 as stated: with a nonempty base template
and no per-network node overrides, the bootstrap-properties step performs
no write at all, so the destination file is not overwritten with the base
template lines. -/
theorem claim_C5_counterexample :
    configureNodeProperties sampleOriginal sampleCliOptions none = [] ∧
    sampleOriginal.bootsrapProperties ≠ [] := by
  exact ⟨rfl, by decide⟩

/-- Claim C5 amended: when per-network node overrides are present, the
destination file is completely overwritten with one key=value line per
entry of the base template followed by the overrides, in order, duplicates
included; when the overrides are absent, nothing is written. -/
theorem claim_C5_amended_bootstrap_write
    (original : OriginalNodeConfiguration) (cliOptions : CLIOptions)
    (nc : List Configuration) :
    configureNodeProperties original cliOptions (some nc)
      = [Effect.writeFile
          (joinPath cliOptions.workDir
            "compose-network/network-node/data/config/bootstrap.properties")
          (appendProperties "" (original.bootsrapProperties ++ nc))] ∧
    configureNodeProperties original cliOptions none = [] := by
  constructor
  · simp [configureNodeProperties, appendProperties, List.foldl_append]
  · rfl

/-- Counterexample to claim C8 as stated: a run with all readiness checks
true on a catalog entry with no node configuration emits exactly one Finish
event yet writes no properties file. -/
theorem claim_C8_counterexample :
    emittedEvents (onStart sampleOriginal sampleCliOptions (some sampleBareConfigurationData)
        true true true sampleApplication) = [EventType.Finish] ∧
    (onStart sampleOriginal sampleCliOptions (some sampleBareConfigurationData)
        true true true sampleApplication).filter Effect.isWriteFile = [] := by
  exact ⟨rfl, rfl⟩

/-- Claim C8 amended: with all three readiness checks true, onStart always
creates the directories, copies the three path pairs, rewrites the
application document exactly once, writes the properties file exactly when
the catalog entry carries node properties, and emits exactly one Finish
event. -/
theorem claim_C8_amended_success_sequence
    (original : OriginalNodeConfiguration) (cliOptions : CLIOptions)
    (configurationData : ConfigurationData) (application : YDoc) :
    Effect.createEphemeralDirectories cliOptions.workDir ∈
      onStart original cliOptions (some configurationData) true true true application ∧
    Effect.copyPaths
        [(configDirSource, cliOptions.workDir ++ "/compose-network/network-node/data/config"),
         (configPathMirrorNodeSource, cliOptions.workDir ++ "/compose-network/mirror-node/application.yml"),
         (recordParserSource, cliOptions.workDir ++ "/services/record-parser")] ∈
      onStart original cliOptions (some configurationData) true true true application ∧
    (onStart original cliOptions (some configurationData) true true true application).filter
        Effect.isWriteYaml
      = [Effect.writeYaml (joinPath cliOptions.workDir "compose-network/mirror-node/application.yml")
          (mirrorNodeDocument original cliOptions application) 256] ∧
    (onStart original cliOptions (some configurationData) true true true application).filter
        Effect.isWriteFile
      = configureNodeProperties original cliOptions
          (configurationData.nodeConfiguration.map NodeConfiguration.properties) ∧
    emittedEvents (onStart original cliOptions (some configurationData) true true true application)
      = [EventType.Finish] := by
  have hWF := filter_setEnvEffects Effect.isWriteFile (fun _ _ => rfl)
  have hWY := filter_setEnvEffects Effect.isWriteYaml (fun _ _ => rfl)
  cases hnc : configurationData.nodeConfiguration <;>
    by_cases hl : cliOptions.limits = true <;> by_cases hm : cliOptions.multiNode = true <;>
    simp [onStart, prepareWorkDirectory, configureEnvVariables, configureNodeProperties,
      configureMirrorNodeProperties, rateLimitOverrides, hnc, hl, hm,
      emittedEvents_cons, emittedEvents_append, emittedEvents_nil, emittedEvents_setEnvEffects,
      hWF, hWY, List.filter_append, List.filter,
      Effect.isWriteFile, Effect.isWriteYaml]

end HederaLocalNode
